import Mathlib

set_option maxHeartbeats 1000000

/-!
Verification of the LOGIC-LM++ / text-to-logic repository.

The repository's core (solver adapter, formulation validator, error
classifier, refinement controller) is exercised by
`code/baseline_logiclm_plus/test_logiclm.py`; the semantic-bridging
post-processing lives in `code/from_text_to_logic/semantic_bridging.py`.
The modules `solver_interface.py` and `formalizer.py` referenced by the
tests are not part of the source tree, so the definitions below that
carry a doc comment starting with `Modelled from the spec:` reconstruct
those components from the specification text; the remaining definitions
are direct shallow embeddings of the Python source.
-/

/-! ### Generic string helpers -/

/-- Decides whether `needle` occurs as a contiguous sublist of `hay`. -/
def containsSub (hay needle : List Char) : Bool :=
  match hay with
  | [] => needle.isEmpty
  | _ :: t => needle.isPrefixOf hay || containsSub t needle

/-- Decides whether the string `needle` occurs inside the string `hay`. -/
def strContainsSub (hay needle : String) : Bool :=
  containsSub hay.toList needle.toList

/-- Lower-cases one ASCII letter. -/
def lowerChar (c : Char) : Char :=
  if c.isUpper then Char.ofNat (c.toNat + 32) else c

/-- Lower-cases the ASCII letters of a string. -/
def lowerStr (s : String) : String :=
  String.mk (s.toList.map lowerChar)

/-! ### Solver adapter data model (spec section 3, SolverResult) -/

/-- Modelled from the spec: the four possible solver answers
{Proved, Disproved, Unknown, Error} of a SolverResult. -/
inductive Answer where
  | Proved
  | Disproved
  | Unknown
  | Error
deriving DecidableEq, Repr

/-- Modelled from the spec: the outcome record of one solver invocation,
with the optional diagnostic `error` and the `timeout` flag. -/
structure SolverResult where
  answer : Answer
  error : Option String
  timeout : Bool
deriving DecidableEq, Repr

/-- Modelled from the spec: the backend enum of the solver adapter
(`solver_interface.py` is absent from the source tree; the tests select
backends by the tags "z3" and "prover9"). -/
inductive Backend where
  | z3
  | prover9
deriving DecidableEq, Repr

/-! ### A ground propositional formula language for the SAT-style backend -/

/-- Modelled from the spec: the formula language the functional SAT-style
backend decides. Ground atoms such as "P(a)" are propositional letters;
the connectives follow the test inputs ("Implies(...)" etc.). -/
inductive Formula where
  | atom : String → Formula
  | neg : Formula → Formula
  | conj : Formula → Formula → Formula
  | disj : Formula → Formula → Formula
  | implies : Formula → Formula → Formula
deriving DecidableEq, Repr

/-- A character usable in an identifier of the formula language. -/
def isIdentChar (c : Char) : Bool :=
  c.isAlphanum || c == '_'

/-- Strips leading and trailing spaces from a character list. -/
def trimSpaces (cs : List Char) : List Char :=
  ((cs.dropWhile (fun c => c == ' ')).reverse.dropWhile (fun c => c == ' ')).reverse

/-- Splits a character list at the first comma lying outside all
parentheses; returns the parts before and after that comma. -/
def splitTopComma : List Char → Nat → List Char → Option (List Char × List Char)
  | [], _, _ => none
  | c :: rest, depth, acc =>
    if c == ',' && depth == 0 then some (acc.reverse, rest)
    else
      splitTopComma rest
        (if c == '(' then depth + 1 else if c == ')' then depth - 1 else depth)
        (c :: acc)

/-- Recognises a ground atom shaped `Name(arguments)`. -/
def isAtomChars (cs : List Char) : Bool :=
  let name := cs.takeWhile isIdentChar
  let rest := cs.dropWhile isIdentChar
  match rest with
  | '(' :: more =>
    (!name.isEmpty) && (!more.isEmpty) && (more.getLast? == some ')') &&
      (let middle := more.dropLast
       (!middle.isEmpty) &&
         middle.all (fun c => isIdentChar c || c == ',' || c == ' '))
  | _ => false

/-- Fueled recursive-descent reading of a formula from characters. -/
def parseFormulaAux : Nat → List Char → Option Formula
  | 0, _ => none
  | fuel + 1, cs0 =>
    let cs := trimSpaces cs0
    if ("Implies(".toList).isPrefixOf cs && cs.getLast? == some ')' then
      match splitTopComma ((cs.drop 8).dropLast) 0 [] with
      | some (l, r) => do
          let fl ← parseFormulaAux fuel l
          let fr ← parseFormulaAux fuel r
          some (Formula.implies fl fr)
      | none => none
    else if ("And(".toList).isPrefixOf cs && cs.getLast? == some ')' then
      match splitTopComma ((cs.drop 4).dropLast) 0 [] with
      | some (l, r) => do
          let fl ← parseFormulaAux fuel l
          let fr ← parseFormulaAux fuel r
          some (Formula.conj fl fr)
      | none => none
    else if ("Or(".toList).isPrefixOf cs && cs.getLast? == some ')' then
      match splitTopComma ((cs.drop 3).dropLast) 0 [] with
      | some (l, r) => do
          let fl ← parseFormulaAux fuel l
          let fr ← parseFormulaAux fuel r
          some (Formula.disj fl fr)
      | none => none
    else if ("Not(".toList).isPrefixOf cs && cs.getLast? == some ')' then
      (parseFormulaAux fuel ((cs.drop 4).dropLast)).map Formula.neg
    else if isAtomChars cs then
      some (Formula.atom (String.mk cs))
    else none

/-- Reads one formula string of the ground propositional language. -/
def parseFOL (s : String) : Option Formula :=
  parseFormulaAux (s.length + 1) s.toList

/-- The distinct atoms occurring in a formula. -/
def collectAtoms : Formula → List String
  | .atom a => [a]
  | .neg f => collectAtoms f
  | .conj f g => collectAtoms f ++ collectAtoms g
  | .disj f g => collectAtoms f ++ collectAtoms g
  | .implies f g => collectAtoms f ++ collectAtoms g

/-- Truth value of a formula under the valuation making exactly the atoms
in `v` true. -/
def evalFormula (v : List String) : Formula → Bool
  | .atom a => v.contains a
  | .neg f => !evalFormula v f
  | .conj f g => evalFormula v f && evalFormula v g
  | .disj f g => evalFormula v f || evalFormula v g
  | .implies f g => !evalFormula v f || evalFormula v g

/-- Modelled from the spec: `test_entailment_z3` of the missing
`solver_interface.py`, the fully functional SAT-style backend. It always
returns a SolverResult: empty premises are an ill-posed query mapped to
`Error`, unreadable formulas are mapped to `Error`, a query whose atom
count exceeds the time budget is abandoned with `timeout = true` and
answer `Unknown`, and otherwise entailment is decided by enumerating all
valuations of the finitely many ground atoms. -/
def test_entailment_z3 (premises : List String) (conclusion : String)
    (timeout : Nat) : SolverResult :=
  if premises.isEmpty then
    { answer := .Error
      error := some "Invalid formulation: empty premises list"
      timeout := false }
  else if conclusion.isEmpty then
    { answer := .Error
      error := some "Invalid formulation: empty conclusion"
      timeout := false }
  else
    match premises.mapM parseFOL, parseFOL conclusion with
    | some ps, some c =>
      let atoms := (((ps.map collectAtoms).flatten) ++ collectAtoms c).dedup
      if timeout + 2 < atoms.length then
        { answer := .Unknown, error := none, timeout := true }
      else
        let vs := atoms.sublists
        if vs.all (fun v => !(ps.all (evalFormula v)) || evalFormula v c) then
          { answer := .Proved, error := none, timeout := false }
        else if vs.all (fun v => !(ps.all (evalFormula v)) || !(evalFormula v c)) then
          { answer := .Disproved, error := none, timeout := false }
        else
          { answer := .Unknown, error := none, timeout := false }
    | _, _ =>
      { answer := .Error
        error := some "Z3 backend could not read a malformed FOL formula"
        timeout := false }

/-- Modelled from the spec: `test_entailment_prover9` of the missing
`solver_interface.py`, a declared-but-unimplemented backend that reports
`answer = Error` with an explicit "not implemented" diagnostic instead of
silently degrading. -/
def test_entailment_prover9 (_premises : List String) (_conclusion : String)
    (_timeout : Nat) : SolverResult :=
  { answer := .Error
    error := some "Prover9 backend is not implemented; use the Z3 backend"
    timeout := false }

/-- Modelled from the spec: `solve_fol` of the missing
`solver_interface.py`, the uniform solve entry point dispatching on the
backend enum. -/
def solve_fol (premises : List String) (conclusion : String)
    (solver : Backend) (timeout : Nat) : SolverResult :=
  match solver with
  | .z3 => test_entailment_z3 premises conclusion timeout
  | .prover9 => test_entailment_prover9 premises conclusion timeout

/-- Modelled from the spec: `parse_solver_error` of the missing
`solver_interface.py`, the error classifier turning a raw backend failure
message into a short non-empty diagnostic that surfaces the word
"timeout" whenever the raw message indicates the time budget was
exceeded. -/
def parse_solver_error (raw : String) (_backend : Backend) : String :=
  if strContainsSub (lowerStr raw) "timeout" then
    "solver timeout: the configured time budget was exceeded"
  else if strContainsSub (lowerStr raw) "unsat" then
    "solver reported unsatisfiability of the premises"
  else
    "solver failure: " ++ (if raw.isEmpty then "unknown backend failure" else raw)

/-! ### Formalization data model and payload deserialization (spec sections 3, 4.2, 6) -/

/-- Modelled from the spec: a candidate logical encoding of a statement,
with a predicate glossary, ordered premises, a conclusion, and an
optional `formalization_error` diagnostic set exactly when
parsing/construction failed. -/
structure Formalization where
  predicates : List (String × String)
  premises : List String
  conclusion : String
  formalization_error : Option String
deriving DecidableEq, Repr

/-- Modelled from the spec: the shape a structured generator payload must
deserialize into — fields `predicates` (string-to-string mapping),
`premises` (sequence of strings) and `conclusion` (string). -/
structure FormalizationPayload where
  predicates : List (String × String)
  premises : List String
  conclusion : String
deriving DecidableEq, Repr

/-- Modelled from the spec: `parse_formalization_response` of the missing
`formalizer.py`. The JSON decoding step is abstracted as the
`deserialize` argument (`none` on any string that does not deserialize
into the expected predicates/premises/conclusion object). On failure the
function degrades gracefully: it returns a Formalization with empty
fields and `formalization_error` set, and — being a total function —
never raises. -/
def parse_formalization_response
    (deserialize : String → Option FormalizationPayload)
    (raw : String) : Formalization :=
  match deserialize raw with
  | some p =>
    { predicates := p.predicates
      premises := p.premises
      conclusion := p.conclusion
      formalization_error := none }
  | none =>
    { predicates := []
      premises := []
      conclusion := ""
      formalization_error :=
        some ("Failed to deserialize formalization response: " ++ raw) }

/-! ### Formulation validator (spec section 4.2) -/

/-- Characters that may not dangle at the end of a formula
(binary connectives and the comma). -/
def isDanglingOpChar (c : Char) : Bool :=
  c == '→' || c == '∧' || c == '∨' || c == '&' || c == '|' || c == ','

/-- Parentheses of a character list are balanced: the running depth never
goes negative and ends at zero. -/
def parensBalanced : List Char → Nat → Bool
  | [], depth => depth == 0
  | c :: rest, depth =>
    if c == '(' then parensBalanced rest (depth + 1)
    else if c == ')' then
      match depth with
      | 0 => false
      | d + 1 => parensBalanced rest d
    else parensBalanced rest depth

/-- Modelled from the spec: the per-formula acceptance check of the
validator — non-empty, balanced connectives/quantifiers (parentheses),
and no dangling operator at the end. Quantifier symbols are first-class
tokens and are not rejected. -/
def checkFormulaShape (s : String) : Bool :=
  let cs := trimSpaces s.toList
  (!cs.isEmpty) && parensBalanced cs 0 &&
    (match cs.getLast? with
     | some c => !isDanglingOpChar c
     | none => false)

/-- The distinct predicate names (identifier immediately followed by an
opening parenthesis) occurring in a character list. -/
def predNamesAux : List Char → List Char → List String
  | [], _ => []
  | c :: rest, acc =>
    if isIdentChar c then predNamesAux rest (acc ++ [c])
    else if c == '(' && !acc.isEmpty then
      String.mk acc :: predNamesAux rest []
    else predNamesAux rest []

/-- Modelled from the spec: the record returned by `validate_formulation`
— a validity flag, the number of distinct predicates seen, and the list
of issues found. -/
structure ValidationResult where
  valid : Bool
  num_predicates : Nat
  issues : List String
deriving DecidableEq, Repr

/-- Modelled from the spec: `validate_formulation` of the missing
`solver_interface.py`. Valid iff the premises list is non-empty, the
conclusion is non-empty and parseable, and every premise is
independently parseable; predicates used only in the conclusion are not
a structural error. -/
def validate_formulation (premises : List String) (conclusion : String) :
    ValidationResult :=
  let issues :=
    (if premises.isEmpty then ["premises list is empty"] else []) ++
    (if checkFormulaShape conclusion then []
     else ["conclusion is empty or malformed"]) ++
    (premises.filter (fun p => !checkFormulaShape p)).map
      (fun p => "unreadable premise: " ++ p)
  { valid := (!premises.isEmpty) && checkFormulaShape conclusion &&
      premises.all checkFormulaShape
    num_predicates :=
      (((conclusion :: premises).map (fun s => predNamesAux s.toList [])).flatten).dedup.length
    issues := issues }

/-- Modelled from the spec: the stricter boolean gate
(`validate_formalization` of the missing `formalizer.py`) applied before
a candidate is offered to the solver — the Formalization must be
well-formed (`formalization_error` absent, premises and conclusion
non-empty) and pass the structural validation. -/
def validate_formalization (f : Formalization) : Bool :=
  f.formalization_error.isNone && (!f.premises.isEmpty) &&
    (!f.conclusion.isEmpty) &&
    (validate_formulation f.premises f.conclusion).valid

/-! ### Refinement controller state machine (spec sections 3 and 4.4) -/

/-- Modelled from the spec: the Decision derived from a
ComparisonVerdict — IMPROVED when the new candidate is preferred, REVERT
when the current best is kept (including forced reverts from
validation/solve failure). -/
inductive Decision where
  | IMPROVED
  | REVERT
deriving DecidableEq, Repr

/-- Modelled from the spec: the configuration passed into Controller
construction — the early-stopping threshold on consecutive reverts and
the iteration cap. -/
structure RefinementConfig where
  early_stop_threshold : Nat
  max_iterations : Nat
deriving DecidableEq, Repr

/-- Modelled from the spec: one per-iteration record appended to
`history` (candidate, verdict, reasoning). -/
structure HistoryRecord where
  decision : Decision
  candidate : Formalization
  reasoning : String
deriving DecidableEq, Repr

/-- Modelled from the spec: RefinementState, the running memory of one
refinement session. -/
structure RefinementState where
  iteration : Nat
  current_best : Formalization × SolverResult
  consecutive_reverts : Nat
  history : List HistoryRecord
deriving DecidableEq, Repr

/-- Modelled from the spec: the data one loop iteration receives from
the external generator, solver and comparator — the derived decision,
the (best) candidate with its solver result, and the comparison or
failure reasoning. -/
structure IterationInput where
  decision : Decision
  candidate : Formalization
  result : SolverResult
  reasoning : String
deriving DecidableEq, Repr

/-- Modelled from the spec: INIT establishes the RefinementState with
`iteration = 0`, the initial formalization (solved once) as
`current_best`, no reverts and an empty history. -/
def initRefinementState (f : Formalization) (r : SolverResult) :
    RefinementState :=
  { iteration := 0
    current_best := (f, r)
    consecutive_reverts := 0
    history := [] }

/-- Modelled from the spec: the ACCEPT transition — the candidate
replaces `current_best`, `consecutive_reverts` resets to 0, a record is
appended to `history`, and `iteration` advances. -/
def acceptStep (st : RefinementState) (inp : IterationInput) :
    RefinementState :=
  { iteration := st.iteration + 1
    current_best := (inp.candidate, inp.result)
    consecutive_reverts := 0
    history := st.history ++
      [{ decision := inp.decision, candidate := inp.candidate,
         reasoning := inp.reasoning }] }

/-- Modelled from the spec: the REVERT transition — `current_best` is
unchanged, `consecutive_reverts` increments by 1, a record with the
rejection reasoning is appended, and `iteration` advances. -/
def revertStep (st : RefinementState) (inp : IterationInput) :
    RefinementState :=
  { iteration := st.iteration + 1
    current_best := st.current_best
    consecutive_reverts := st.consecutive_reverts + 1
    history := st.history ++
      [{ decision := inp.decision, candidate := inp.candidate,
         reasoning := inp.reasoning }] }

/-- Applies the decision of one iteration to the state. -/
def applyDecision (st : RefinementState) (inp : IterationInput) :
    RefinementState :=
  match inp.decision with
  | .IMPROVED => acceptStep st inp
  | .REVERT => revertStep st inp

/-- Modelled from the spec: a solver answer of Proved or Disproved is a
decisive result. -/
def decisive (a : Answer) : Bool :=
  a == Answer.Proved || a == Answer.Disproved

/-- Modelled from the spec: the termination conditions checked after
every ACCEPT/REVERT — decisive solver success on the current best, the
consecutive-revert threshold reached, or the iteration cap reached. -/
def shouldTerminate (cfg : RefinementConfig) (st : RefinementState) : Bool :=
  decisive (st.current_best.2).answer ||
    cfg.early_stop_threshold ≤ st.consecutive_reverts ||
    cfg.max_iterations ≤ st.iteration

/-- Modelled from the spec: the sequence of states a session visits,
driven by the per-iteration inputs supplied by the external
generator/comparator; the loop stops as soon as a termination condition
holds, and otherwise applies one ACCEPT/REVERT transition per input. -/
def sessionTrace (cfg : RefinementConfig) :
    List IterationInput → RefinementState → List RefinementState
  | [], st => [st]
  | inp :: rest, st =>
    if shouldTerminate cfg st then [st]
    else st :: sessionTrace cfg rest (applyDecision st inp)

/-! ### Semantic bridging (`code/from_text_to_logic/semantic_bridging.py`)

Shallow embedding of `add_semantic_bridges`. The three detector
functions it calls (`detect_commitment_action_pairs`,
`detect_negation_equivalences`, `detect_similar_propositions`) rely on
regular-expression search and, for the third, on an external
sentence-embedding model whose availability is environment-dependent
(`compute_sbert_similarity` falls back to Jaccard similarity on
ImportError); their outputs are therefore passed in as explicit
arguments, and every theorem below holds for all possible detector
outputs. The body of `add_semantic_bridges` itself is translated
directly from the source. -/

/-- A primitive proposition of a logified structure: an `id` and its
natural-language `translation`. -/
structure Proposition where
  id : String
  translation : String
deriving DecidableEq, Repr

/-- A constraint record of a logified structure, as built by
`add_semantic_bridges` (fields `id`, `formula`, `translation`,
`evidence`, `reasoning`). -/
structure Constraint where
  id : String
  formula : String
  translation : String
  evidence : String
  reasoning : String
deriving DecidableEq, Repr

/-- A logified structure: `primitive_props`, `hard_constraints` and
`soft_constraints`. -/
structure LogicStructure where
  primitive_props : List Proposition
  hard_constraints : List Constraint
  soft_constraints : List Constraint
deriving DecidableEq, Repr

/-- The loop state of `add_semantic_bridges`: the `existing_formulas`
set (as a list, queried by membership only), the `bridge_id_counter`,
and the accumulated `new_constraints`. -/
structure BridgeState where
  existing : List String
  counter : Nat
  news : List Constraint
deriving DecidableEq, Repr

/-- One conditional append of `add_semantic_bridges`: if the formula is
not among the existing ones, a `BRIDGE_<counter>` constraint carrying it
is appended, the formula is recorded, and the counter advances; else the
state is unchanged. -/
def tryAddBridge (st : BridgeState) (formula tr ev reasoning : String) :
    BridgeState :=
  if formula ∈ st.existing then st
  else
    { existing := st.existing ++ [formula]
      counter := st.counter + 1
      news := st.news ++
        [{ id := "BRIDGE_" ++ toString st.counter
           formula := formula
           translation := tr
           evidence := ev
           reasoning := reasoning }] }

/-- Step 1 of `add_semantic_bridges`: one commitment-to-action pair
`(commit_id, action_id, reasoning)` becomes the constraint
`commit_id ⟹ action_id`. -/
def commitmentStep (st : BridgeState) (pr : String × String × String) :
    BridgeState :=
  tryAddBridge st (pr.1 ++ " ⟹ " ++ pr.2.1) "Commitment implies action"
    "Semantic bridging: commitment/intention implies the action" pr.2.2

/-- Step 2 of `add_semantic_bridges`: one negation/antonym tuple
`(id1, id2, operator, reasoning)` becomes a mutual-exclusion constraint
`¬(id1 ∧ id2)` when the operator is MUTEX, and a negation equivalence
`id1 ⟺ ¬id2` otherwise. -/
def negationStep (st : BridgeState) (pr : String × String × String × String) :
    BridgeState :=
  if pr.2.2.1 == "MUTEX" then
    tryAddBridge st ("¬(" ++ pr.1 ++ " ∧ " ++ pr.2.1 ++ ")")
      "Mutual exclusion (antonyms)"
      "Semantic bridging: antonym pair detected" pr.2.2.2
  else
    tryAddBridge st (pr.1 ++ " ⟺ ¬" ++ pr.2.1) "Negation equivalence"
      "Semantic bridging: negation equivalence detected" pr.2.2.2

/-- Step 3 of `add_semantic_bridges`: one similar-proposition pair
`(id1, id2, sim)` becomes the biconditional `id1 ⟺ id2` (the source
computes the same formula in both branches of its similarity test); the
reasoning quotes the proposition translations looked up by id, the
evidence carries the similarity (number formatting abstracted). -/
def similarStep (props : List Proposition) (st : BridgeState)
    (pr : String × String × Float) : BridgeState :=
  let formula :=
    if (0.9 : Float) ≤ pr.2.2 then pr.1 ++ " ⟺ " ++ pr.2.1
    else pr.1 ++ " ⟺ " ++ pr.2.1
  let p1_text :=
    (((props.find? (fun p => p.id == pr.1)).map Proposition.translation)).getD pr.1
  let p2_text :=
    (((props.find? (fun p => p.id == pr.2.1)).map Proposition.translation)).getD pr.2.1
  tryAddBridge st formula "Semantic equivalence"
    ("Semantic bridging: similarity=" ++ toString pr.2.2)
    ("\x27" ++ p1_text ++ "\x27 is semantically equivalent to \x27" ++
      p2_text ++ "\x27")

/-- The final loop state of `add_semantic_bridges`: the initial
`existing_formulas` are the formulas of the hard then soft constraints,
the counter starts at 1, and the three detector-result lists are folded
through in source order. -/
def bridgeLoopState (s : LogicStructure)
    (commitmentPairs : List (String × String × String))
    (negationPairs : List (String × String × String × String))
    (similarPairs : List (String × String × Float)) : BridgeState :=
  let existing0 := (s.hard_constraints.map Constraint.formula) ++
    (s.soft_constraints.map Constraint.formula)
  (similarPairs.foldl (similarStep s.primitive_props)
    (negationPairs.foldl negationStep
      (commitmentPairs.foldl commitmentStep
        { existing := existing0, counter := 1, news := [] })))

/-- Shallow embedding of `add_semantic_bridges`
(`semantic_bridging.py`, lines 267-391): on an empty `primitive_props`
the structure is returned unchanged; otherwise the bridge constraints
accumulated from the three detector-result lists are appended to
`hard_constraints` (the structure is also returned unchanged when no
bridge was added). -/
def add_semantic_bridges (s : LogicStructure)
    (commitmentPairs : List (String × String × String))
    (negationPairs : List (String × String × String × String))
    (similarPairs : List (String × String × Float)) : LogicStructure :=
  if s.primitive_props.isEmpty then s
  else if (bridgeLoopState s commitmentPairs negationPairs similarPairs).news.isEmpty then s
  else
    { s with hard_constraints := s.hard_constraints ++
        (bridgeLoopState s commitmentPairs negationPairs similarPairs).news }

/-- The bookkeeping invariant of the `add_semantic_bridges` loop: the
existing-formula set is exactly the initial formulas plus the formulas
of the accumulated new constraints, the new formulas are pairwise
distinct, and none of them was initially present. -/
def BridgeInv (init : List String) (st : BridgeState) : Prop :=
  st.existing = init ++ st.news.map Constraint.formula ∧
  (st.news.map Constraint.formula).Nodup ∧
  ∀ f ∈ st.news.map Constraint.formula, f ∉ init

/-! ### Helper lemmas -/

theorem foldl_preserve {σ α : Type} (P : σ → Prop) (f : σ → α → σ)
    (hf : ∀ s a, P s → P (f s a)) :
    ∀ (l : List α) (s : σ), P s → P (l.foldl f s) := by
  intro l
  induction l with
  | nil => intro s h; exact h
  | cons a t ih => intro s h; exact ih _ (hf s a h)

theorem tryAddBridge_inv (init : List String) (st : BridgeState)
    (formula tr ev reasoning : String) (h : BridgeInv init st) :
    BridgeInv init (tryAddBridge st formula tr ev reasoning) := by
  obtain ⟨he, hn, hd⟩ := h
  unfold tryAddBridge
  split
  · exact ⟨he, hn, hd⟩
  · rename_i hmem
    have hnotnews : formula ∉ st.news.map Constraint.formula := by
      intro hf; exact hmem (he ▸ List.mem_append_right _ hf)
    have hnotinit : formula ∉ init := by
      intro hf; exact hmem (he ▸ List.mem_append_left _ hf)
    refine ⟨?_, ?_, ?_⟩
    · simp only [List.map_append, List.map_cons, List.map_nil, he,
        List.append_assoc]
    · simp only [List.map_append, List.map_cons, List.map_nil]
      simp [List.nodup_append, hn, hnotnews]
    · intro f hf
      simp only [List.map_append, List.map_cons, List.map_nil,
        List.mem_append, List.mem_singleton] at hf
      rcases hf with hf | rfl
      · exact hd f hf
      · exact hnotinit

theorem commitmentStep_inv (init : List String) (st : BridgeState)
    (pr : String × String × String) (h : BridgeInv init st) :
    BridgeInv init (commitmentStep st pr) :=
  tryAddBridge_inv init st _ _ _ _ h

theorem negationStep_inv (init : List String) (st : BridgeState)
    (pr : String × String × String × String) (h : BridgeInv init st) :
    BridgeInv init (negationStep st pr) := by
  unfold negationStep
  split
  · exact tryAddBridge_inv init st _ _ _ _ h
  · exact tryAddBridge_inv init st _ _ _ _ h

theorem similarStep_inv (props : List Proposition) (init : List String)
    (st : BridgeState) (pr : String × String × Float) (h : BridgeInv init st) :
    BridgeInv init (similarStep props st pr) :=
  tryAddBridge_inv init st _ _ _ _ h

theorem bridgeLoopState_inv (s : LogicStructure)
    (cp : List (String × String × String))
    (np : List (String × String × String × String))
    (sp : List (String × String × Float)) :
    BridgeInv ((s.hard_constraints.map Constraint.formula) ++
      (s.soft_constraints.map Constraint.formula))
      (bridgeLoopState s cp np sp) := by
  unfold bridgeLoopState
  apply foldl_preserve _ _ (fun st pr => similarStep_inv s.primitive_props _ st pr)
  apply foldl_preserve _ _ (fun st pr => negationStep_inv _ st pr)
  apply foldl_preserve _ _ (fun st pr => commitmentStep_inv _ st pr)
  exact ⟨by simp, List.nodup_nil, by simp⟩

theorem sessionTrace_consecutive_le (cfg : RefinementConfig) :
    ∀ (ds : List IterationInput) (st : RefinementState),
    st.consecutive_reverts ≤ cfg.early_stop_threshold →
    ∀ st2 ∈ sessionTrace cfg ds st,
      st2.consecutive_reverts ≤ cfg.early_stop_threshold := by
  intro ds
  induction ds with
  | nil =>
    intro st h st2 hm
    simp only [sessionTrace, List.mem_singleton] at hm
    exact hm ▸ h
  | cons inp rest ih =>
    intro st h st2 hm
    by_cases ht : shouldTerminate cfg st = true
    · simp only [sessionTrace, ht, if_true, List.mem_singleton] at hm
      exact hm ▸ h
    · rw [sessionTrace, if_neg ht] at hm
      rcases List.mem_cons.mp hm with hm2 | hm2
      · exact hm2 ▸ h
      · refine ih (applyDecision st inp) ?_ st2 hm2
        have hlt : st.consecutive_reverts < cfg.early_stop_threshold := by
          simp only [shouldTerminate, Bool.or_eq_true, decide_eq_true_eq] at ht
          push_neg at ht
          exact ht.1.2
        cases hd : inp.decision <;>
          simp [applyDecision, hd, acceptStep, revertStep] ; omega

/-! ### Claim theorems -/

/-- C1: for every malformed structured payload — any string on which the
deserialization step fails — `parse_formalization_response` returns a
Formalization whose `formalization_error` is set to a non-null value
(with empty predicate/premise/conclusion fields); being a total
function, it never raises. -/
theorem parse_formalization_malformed_sets_error
    (deserialize : String → Option FormalizationPayload) (raw : String)
    (h : deserialize raw = none) :
    (parse_formalization_response deserialize raw).formalization_error ≠ none ∧
    (parse_formalization_response deserialize raw).predicates = [] ∧
    (parse_formalization_response deserialize raw).premises = [] ∧
    (parse_formalization_response deserialize raw).conclusion = "" := by
  simp [parse_formalization_response, h]

/-- Witness for C1 at the concrete malformed payload of the tests. -/
theorem parse_formalization_malformed_sets_error_witness :
    ((fun _ : String => (none : Option FormalizationPayload))
        "This is not valid JSON \x7b broken" = none) ∧
    (parse_formalization_response (fun _ => none)
        "This is not valid JSON \x7b broken").formalization_error ≠ none :=
  ⟨rfl,
    (parse_formalization_malformed_sets_error (fun _ => none)
      "This is not valid JSON \x7b broken" rfl).1⟩

/-- C2: every SolverResult produced by `solve_fol` satisfies the data
model invariant: the answer is Error exactly when the error field is set
and non-empty, and a timeout implies the answer is Unknown or Error. -/
theorem solve_fol_result_invariant (ps : List String) (c : String)
    (b : Backend) (t : Nat) :
    ((solve_fol ps c b t).answer = Answer.Error ↔
      (solve_fol ps c b t).error ≠ none ∧
        (solve_fol ps c b t).error ≠ some "") ∧
    ((solve_fol ps c b t).timeout = true →
      (solve_fol ps c b t).answer = Answer.Unknown ∨
        (solve_fol ps c b t).answer = Answer.Error) := by
  cases b
  · unfold solve_fol test_entailment_z3
    repeat' split <;> try simp_all
  · unfold solve_fol test_entailment_prover9
    simp

/-- Witness for C2 at an input that makes the backend time out. -/
theorem solve_fol_result_invariant_witness :
    (solve_fol ["P1(a)", "P2(a)", "P3(a)"] "P4(a)" Backend.z3 1).timeout
        = true ∧
    ((solve_fol ["P1(a)", "P2(a)", "P3(a)"] "P4(a)" Backend.z3 1).answer
        = Answer.Unknown ∨
      (solve_fol ["P1(a)", "P2(a)", "P3(a)"] "P4(a)" Backend.z3 1).answer
        = Answer.Error) :=
  ⟨by decide,
    (solve_fol_result_invariant ["P1(a)", "P2(a)", "P3(a)"] "P4(a)"
      Backend.z3 1).2 (by decide)⟩

/-- C3: for every conclusion string (and every backend and timeout),
`solve_fol` on an empty premises sequence returns answer Error with a
non-null error message instead of crashing. -/
theorem solve_fol_empty_premises_error (c : String) (b : Backend) (t : Nat) :
    (solve_fol [] c b t).answer = Answer.Error ∧
    (solve_fol [] c b t).error ≠ none := by
  cases b <;>
    simp [solve_fol, test_entailment_z3, test_entailment_prover9]

/-- C5: the modus ponens scenario — premises P(a) and
Implies(P(a), Q(a)), conclusion Q(a) — is answered Proved by `solve_fol`. -/
theorem solve_fol_modus_ponens_proved :
    (solve_fol ["P(a)", "Implies(P(a), Q(a))"] "Q(a)" Backend.z3 5).answer
      = Answer.Proved := by decide

/-- C6: the declared-but-unimplemented Prover9 backend returns, for
every input, answer Error with an error message containing the phrase
"not implemented" case-insensitively, rather than raising or silently
degrading. -/
theorem prover9_reports_not_implemented (ps : List String) (c : String)
    (t : Nat) :
    (test_entailment_prover9 ps c t).answer = Answer.Error ∧
    ∃ e, (test_entailment_prover9 ps c t).error = some e ∧
      strContainsSub (lowerStr e) "not implemented" = true :=
  ⟨rfl, "Prover9 backend is not implemented; use the Z3 backend", rfl,
    by decide⟩

/-- C7: the error classifier `parse_solver_error` always returns a
non-empty diagnostic, and whenever the raw message indicates the time
budget was exceeded (it mentions "timeout" in any capitalisation), the
diagnostic contains the lower-cased word "timeout". -/
theorem parse_solver_error_contract (raw : String) (b : Backend) :
    parse_solver_error raw b ≠ "" ∧
    (strContainsSub (lowerStr raw) "timeout" = true →
      strContainsSub (lowerStr (parse_solver_error raw b)) "timeout" = true) := by
  unfold parse_solver_error
  split
  · exact ⟨by decide, fun _ => by decide⟩
  · rename_i hto
    split
    · exact ⟨by decide, fun h => absurd h hto⟩
    · refine ⟨?_, fun h => absurd h hto⟩
      intro h
      have h2 := congrArg String.length h
      simp [String.length_append] at h2
      exact absurd h2.1 (by decide)

/-- Witness for C7 at the raw Z3 timeout message of the tests. -/
theorem parse_solver_error_contract_witness :
    parse_solver_error "Z3 exception: timeout exceeded after 30000ms"
        Backend.z3 ≠ "" ∧
    strContainsSub
      (lowerStr (parse_solver_error "Z3 exception: timeout exceeded after 30000ms"
        Backend.z3)) "timeout" = true :=
  ⟨(parse_solver_error_contract
      "Z3 exception: timeout exceeded after 30000ms" Backend.z3).1,
    (parse_solver_error_contract
      "Z3 exception: timeout exceeded after 30000ms" Backend.z3).2
      (by decide)⟩

/-- C8: a Formalization with an empty premises sequence is rejected by
validation, regardless of its conclusion, predicates and error fields:
`validate_formulation` reports valid = false and the boolean gate
`validate_formalization` returns false. -/
theorem empty_premises_fail_validation (preds : List (String × String))
    (c : String) (err : Option String) :
    (validate_formulation [] c).valid = false ∧
    validate_formalization
      { predicates := preds, premises := [], conclusion := c,
        formalization_error := err } = false := by
  constructor
  · simp [validate_formulation]
  · simp [validate_formalization]

/-- C4: in every refinement session the ACCEPT transition sets
`consecutive_reverts` to exactly 0 and the REVERT transition increments
it by exactly 1; a state whose `consecutive_reverts` has reached the
configured early-stop threshold terminates the session immediately, and
consequently no state reached in a session started at INIT has
`consecutive_reverts` above the threshold. -/
theorem refinement_backtracking_monotonicity (cfg : RefinementConfig)
    (inputs : List IterationInput) (f : Formalization) (r : SolverResult) :
    (∀ st inp, (acceptStep st inp).consecutive_reverts = 0) ∧
    (∀ st inp, (revertStep st inp).consecutive_reverts =
      st.consecutive_reverts + 1) ∧
    (∀ (ds : List IterationInput) (st : RefinementState),
      cfg.early_stop_threshold ≤ st.consecutive_reverts →
      sessionTrace cfg ds st = [st]) ∧
    (∀ st2 ∈ sessionTrace cfg inputs (initRefinementState f r),
      st2.consecutive_reverts ≤ cfg.early_stop_threshold) := by
  refine ⟨fun st inp => rfl, fun st inp => rfl, ?_, ?_⟩
  · intro ds st h
    cases ds <;> simp [sessionTrace, shouldTerminate, h]
  · exact sessionTrace_consecutive_le cfg inputs (initRefinementState f r)
      (Nat.zero_le _)

/-- Witness for C4 at a concrete session: a state that has reached the
threshold of 2 consecutive reverts stops at once, and the INIT state of
a session is within the threshold. -/
theorem refinement_backtracking_monotonicity_witness :
    sessionTrace ⟨2, 10⟩
        [⟨Decision.REVERT, ⟨[], ["P(a)"], "Q(a)", none⟩,
          ⟨Answer.Unknown, none, false⟩, "worse"⟩]
        ⟨5, (⟨[], ["P(a)"], "Q(a)", none⟩, ⟨Answer.Unknown, none, false⟩),
          2, []⟩
      = [⟨5, (⟨[], ["P(a)"], "Q(a)", none⟩, ⟨Answer.Unknown, none, false⟩),
          2, []⟩] ∧
    (initRefinementState ⟨[], ["P(a)"], "Q(a)", none⟩
        ⟨Answer.Unknown, none, false⟩).consecutive_reverts ≤ 2 :=
  ⟨(refinement_backtracking_monotonicity ⟨2, 10⟩
      [⟨Decision.REVERT, ⟨[], ["P(a)"], "Q(a)", none⟩,
        ⟨Answer.Unknown, none, false⟩, "worse"⟩]
      ⟨[], ["P(a)"], "Q(a)", none⟩ ⟨Answer.Unknown, none, false⟩).2.2.1
      _ _ (by decide),
    (refinement_backtracking_monotonicity ⟨2, 10⟩
      [⟨Decision.REVERT, ⟨[], ["P(a)"], "Q(a)", none⟩,
        ⟨Answer.Unknown, none, false⟩, "worse"⟩]
      ⟨[], ["P(a)"], "Q(a)", none⟩ ⟨Answer.Unknown, none, false⟩).2.2.2
      _ (by decide)⟩

/-- C9: for every input structure and all detector outputs,
`add_semantic_bridges` leaves `primitive_props` and `soft_constraints`
unchanged and only appends to `hard_constraints` (the input hard
constraints are a prefix of the output); when `primitive_props` is empty
the structure is returned entirely unchanged. -/
theorem add_semantic_bridges_frame (s : LogicStructure)
    (cp : List (String × String × String))
    (np : List (String × String × String × String))
    (sp : List (String × String × Float)) :
    (add_semantic_bridges s cp np sp).primitive_props = s.primitive_props ∧
    (add_semantic_bridges s cp np sp).soft_constraints = s.soft_constraints ∧
    (∃ tail, (add_semantic_bridges s cp np sp).hard_constraints =
      s.hard_constraints ++ tail) ∧
    (s.primitive_props = [] → add_semantic_bridges s cp np sp = s) := by
  unfold add_semantic_bridges
  split
  · exact ⟨rfl, rfl, ⟨[], by simp⟩, fun _ => rfl⟩
  · rename_i hne
    split
    · exact ⟨rfl, rfl, ⟨[], by simp⟩, fun h => by simp [h] at hne⟩
    · exact ⟨rfl, rfl, ⟨_, rfl⟩, fun h => by simp [h] at hne⟩

/-- Witness for C9: a structure with no primitive propositions passes
through unchanged. -/
theorem add_semantic_bridges_frame_witness :
    add_semantic_bridges (⟨[], [], []⟩ : LogicStructure) [] [] []
      = (⟨[], [], []⟩ : LogicStructure) :=
  (add_semantic_bridges_frame ⟨[], [], []⟩ [] [] []).2.2.2 rfl

/-- C10: the bridge constraints accumulated by the
`add_semantic_bridges` loop (exactly the ones it appends to
`hard_constraints` when any exist) carry pairwise-distinct formula
strings, and none of those formulas equals a formula already present in
the input hard or soft constraints — for every input structure and all
detector outputs. -/
theorem add_semantic_bridges_no_duplicates (s : LogicStructure)
    (cp : List (String × String × String))
    (np : List (String × String × String × String))
    (sp : List (String × String × Float)) :
    ((bridgeLoopState s cp np sp).news.map Constraint.formula).Nodup ∧
    ∀ f ∈ (bridgeLoopState s cp np sp).news.map Constraint.formula,
      f ∉ s.hard_constraints.map Constraint.formula ∧
      f ∉ s.soft_constraints.map Constraint.formula := by
  obtain ⟨-, hn, hd⟩ := bridgeLoopState_inv s cp np sp
  refine ⟨hn, fun f hf => ?_⟩
  have hni := hd f hf
  simp only [List.mem_append] at hni
  exact ⟨fun h => hni (Or.inl h), fun h => hni (Or.inr h)⟩

/-- Witness for C10: a commitment bridge added next to one existing hard
constraint is new and distinct. -/
theorem add_semantic_bridges_no_duplicates_witness :
    "P_1 ⟹ P_3" ∈ (bridgeLoopState
        (⟨[⟨"P_1", "a"⟩], [⟨"H_1", "P_1 ⟹ P_2", "", "", ""⟩], []⟩ :
          LogicStructure)
        [("P_1", "P_3", "commitment")] [] []).news.map Constraint.formula ∧
    "P_1 ⟹ P_3" ∉
      ([⟨"H_1", "P_1 ⟹ P_2", "", "", ""⟩] : List Constraint).map
        Constraint.formula ∧
    "P_1 ⟹ P_3" ∉ ([] : List Constraint).map Constraint.formula :=
  ⟨by decide,
    (add_semantic_bridges_no_duplicates
      ⟨[⟨"P_1", "a"⟩], [⟨"H_1", "P_1 ⟹ P_2", "", "", ""⟩], []⟩
      [("P_1", "P_3", "commitment")] [] []).2 _ (by decide)⟩
